import Mathlib

/-!
Verification development for the PharmaGuard clinical dashboard
(`pharma-ui/app/page.tsx`).  The relevant TypeScript functions are shallowly
embedded as executable Lean definitions: file text is modelled as `List Char`
(JavaScript strings are sequences of code units), machine numbers appearing in
the UI are modelled as `ℚ`/`ℤ`/`ℕ`, and JavaScript `undefined`-able fields
become `Option` fields.  Each embedded definition carries a comment pointing
at the source lines it mirrors.
-/

namespace PharmaGuard

/-! ### Character and string helpers (JS string primitives) -/

/-- JS ASCII whitespace as used by `String.prototype.trim` and the regex
class `\s` (restricted to the ASCII range; the repository only ever feeds
ASCII data through these paths). -/
def isJsWs (c : Char) : Bool :=
  c == ' ' || c == '\t' || c == '\n' || c == '\r' || c == '\x0b' || c == '\x0c'

/-- `needle` is a prefix of `hay` (JS `String.prototype.startsWith`). -/
def startsWithChars : List Char → List Char → Bool
  | [], _ => true
  | _ :: _, [] => false
  | n :: ns, h :: hs => n == h && startsWithChars ns hs

/-- `suf` is a suffix of `hay` (JS `String.prototype.endsWith`). -/
def endsWithChars (hay suf : List Char) : Bool :=
  startsWithChars suf.reverse hay.reverse

/-- `needle` occurs contiguously inside `hay` (JS `String.prototype.includes`). -/
def charsIncl : List Char → List Char → Bool
  | hay, needle =>
    if startsWithChars needle hay then true
    else
      match hay with
      | [] => false
      | _ :: t => charsIncl t needle

/-- JS `hay.includes(needle)` on `String`. -/
def strIncludes (hay needle : String) : Bool :=
  charsIncl hay.data needle.data

/-- JS `toLowerCase` (ASCII). -/
def lowerChars (l : List Char) : List Char := l.map Char.toLower

/-- JS `toLowerCase` on `String` (ASCII). -/
def jsToLower (s : String) : String := String.mk (lowerChars s.data)

/-- JS `toUpperCase` on `String` (ASCII). -/
def jsToUpper (s : String) : String := String.mk (s.data.map Char.toUpper)

/-- JS `String.prototype.trim` on a character list. -/
def trimChars (l : List Char) : List Char :=
  ((l.dropWhile isJsWs).reverse.dropWhile isJsWs).reverse

/-- Split on a single separator character (JS `split(",")`, `split("\t")`).
Consecutive separators yield empty fields; the result is never empty. -/
def splitOnCharAux (sep : Char) : List Char → List Char → List (List Char)
  | [], acc => [acc.reverse]
  | c :: rest, acc =>
    if c = sep then acc.reverse :: splitOnCharAux sep rest []
    else splitOnCharAux sep rest (c :: acc)

/-- Split a character list on a separator character. -/
def splitOnChar (sep : Char) (l : List Char) : List (List Char) :=
  splitOnCharAux sep l []

/-- Split on the regex `/\r?\n/` (JS `sample.split(/\r?\n/)`): both `"\n"`
and `"\r\n"` separate lines; a lone `"\r"` is ordinary content. -/
def splitLinesAux : List Char → List Char → List (List Char)
  | [], acc => [acc.reverse]
  | '\n' :: rest, acc => acc.reverse :: splitLinesAux rest []
  | '\r' :: '\n' :: rest, acc => acc.reverse :: splitLinesAux rest []
  | c :: rest, acc => splitLinesAux rest (c :: acc)

/-- Split a character list into lines on `/\r?\n/`. -/
def splitLines (l : List Char) : List (List Char) :=
  splitLinesAux l []

/-- JS `opt || dflt` for an optional string: `undefined` and `""` are falsy. -/
def strOr (o : Option String) (dflt : String) : String :=
  match o with
  | none => dflt
  | some s => if s = "" then dflt else s

/-! ### Risk tone classification (page.tsx lines 93-99, `toneFor`) -/

/-- The four card tones (page.tsx line 5). -/
inductive Tone where
  | safe
  | adjust
  | toxic
  | unknown
deriving DecidableEq

/-- page.tsx lines 93-99: note that the `safe` branch tests `v === "safe"`
(exact equality of the lowercased label) while the other branches use
`includes` (substring). -/
def toneFor (label : Option String) : Tone :=
  let v := jsToLower (strOr label "")
  if v = "safe" then .safe
  else if strIncludes v "adjust" then .adjust
  else if strIncludes v "toxic" || strIncludes v "ineffective" then .toxic
  else .unknown

/-! ### Drug token parsing (page.tsx lines 123-128, `parseDrugTokens`) -/

/-- page.tsx lines 123-128: split on commas, trim, uppercase, drop empties. -/
def parseDrugTokens (input : String) : List String :=
  ((splitOnChar ',' input.data).map
      (fun t => String.mk ((trimChars t).map Char.toUpper))).filter
    (fun t => t ≠ "")

/-- Character class of the source regex `/^[A-Z0-9\-\s]+$/`
(page.tsx line 343). -/
def isSourceTokenChar (c : Char) : Bool :=
  ('A' ≤ c && c ≤ 'Z') || ('0' ≤ c && c ≤ '9') || c == '-' || isJsWs c

/-- A token passes the source regex `/^[A-Z0-9\-\s]+$/` (page.tsx line 343). -/
def jsTokenOk (t : String) : Bool :=
  !t.data.isEmpty && t.data.all isSourceTokenChar

/-- Modelled from the words of claim C5: its character class `[A-Z0-9\- ]+`
admits a literal space but not other whitespace.  Used only to compare the
claim against the source behaviour. -/
def claimTokenOk (t : String) : Bool :=
  !t.data.isEmpty &&
    t.data.all (fun c => ('A' ≤ c && c ≤ 'Z') || ('0' ≤ c && c ≤ '9') || c == '-' || c == ' ')

/-! ### Drug → primary gene table (page.tsx lines 68-80) -/

/-- page.tsx lines 68-80, `DRUG_PRIMARY_GENE`. -/
def DRUG_PRIMARY_GENE : List (String × String) :=
  [("CODEINE", "CYP2D6"),
   ("WARFARIN", "CYP2C9"),
   ("CLOPIDOGREL", "CYP2C19"),
   ("SIMVASTATIN", "SLCO1B1"),
   ("AZATHIOPRINE", "TPMT"),
   ("FLUOROURACIL", "DPYD"),
   ("FLUOXETINE", "CYP2D6"),
   ("PAROXETINE", "CYP2D6"),
   ("RISPERIDONE", "CYP2D6"),
   ("IBUPROFEN", "CYP2C9"),
   ("OMEPRAZOLE", "CYP2C19")]

/-- `DRUG_PRIMARY_GENE[drugName]`: record lookup by key. -/
def lookupGene (d : String) : Option String :=
  (DRUG_PRIMARY_GENE.find? (fun p => p.1 = d)).map Prod.snd

/-! ### Result shapes (page.tsx lines 7-51) -/

/-- page.tsx line 11. -/
structure RiskAssessment where
  risk_label : Option String
  severity : Option String
  confidence_score : Option ℚ
deriving DecidableEq

/-- page.tsx line 16. -/
structure DetectedVariant where
  rsid : Option String
  gene : Option String
  allele : Option String
  function : Option String
  genotype : Option String
deriving DecidableEq

/-- page.tsx lines 12-17. -/
structure PharmacogenomicProfile where
  primary_gene : Option String
  phenotype : Option String
  diplotype : Option String
  detected_variants : Option (List DetectedVariant)
deriving DecidableEq

/-- page.tsx line 18. -/
structure ClinicalRecommendation where
  action : Option String
  guideline_source : Option String
deriving DecidableEq

/-- page.tsx lines 23-24. -/
structure Citation where
  rsid : Option String
  gene : Option String
  dbSNP_url : Option String
deriving DecidableEq

/-- page.tsx lines 19-25. -/
structure LlmExplanation where
  summary : Option String
  mechanism : Option String
  recommendation : Option String
  citations : Option (List Citation)
  variant_citations : Option (List Citation)
deriving DecidableEq

/-- page.tsx lines 26-30. -/
structure QualityMetrics where
  total_variants_analyzed : Option ℤ
  variants_detected : Option ℤ
  vcf_parsing_success : Option Bool
deriving DecidableEq

/-- page.tsx lines 7-31, `SingleResult`. -/
structure SingleResult where
  patient_id : Option String
  drug : Option String
  timestamp : Option String
  risk_assessment : Option RiskAssessment
  pharmacogenomic_profile : Option PharmacogenomicProfile
  clinical_recommendation : Option ClinicalRecommendation
  llm_generated_explanation : Option LlmExplanation
  quality_metrics : Option QualityMetrics
deriving DecidableEq

/-- page.tsx lines 41-49: one per-drug record of a batch response. -/
structure BatchDrugResult where
  risk_label : Option String
  severity : Option String
  confidence_score : Option ℚ
  gene : Option String
  phenotype : Option String
  diplotype : Option String
  recommendation : Option String
deriving DecidableEq

/-- page.tsx lines 37. -/
structure PolypharmacyWarning where
  warning : Option String
  clinical_note : Option String
deriving DecidableEq

/-- page.tsx lines 33-51, `BatchResult`.  The `results` record is modelled as
an association list in JS insertion order (`Object.entries` order). -/
structure BatchResult where
  patient_id : Option String
  timestamp : Option String
  drugs_analyzed : Option (List String)
  polypharmacy_warnings : Option (List PolypharmacyWarning)
  llm_explanations : Option (List (String × LlmExplanation))
  results : Option (List (String × BatchDrugResult))
deriving DecidableEq

/-- A `SingleResult` with every field absent; concrete results in the
theorems below are built from it by structure update. -/
def baseSingle : SingleResult :=
  { patient_id := none, drug := none, timestamp := none, risk_assessment := none,
    pharmacogenomic_profile := none, clinical_recommendation := none,
    llm_generated_explanation := none, quality_metrics := none }

/-! ### Annotation-gap detection (page.tsx lines 153-196) -/

/-- `single.pharmacogenomic_profile?.primary_gene` (optional chaining). -/
def pgGene (s : SingleResult) : Option String :=
  s.pharmacogenomic_profile.bind fun p => p.primary_gene

/-- `single.pharmacogenomic_profile?.phenotype` (optional chaining). -/
def pgPhenotype (s : SingleResult) : Option String :=
  s.pharmacogenomic_profile.bind fun p => p.phenotype

/-- page.tsx line 158. -/
def noteParsing : String :=
  "VCF parsing was only partially successful. Some annotations may be unavailable."

/-- page.tsx line 161. -/
def noteNoVariants : String :=
  "No target pharmacogenomic variants were detected in the uploaded VCF."

/-- page.tsx line 164. -/
def noteGeneMissing : String :=
  "Primary gene annotation is missing for this result."

/-- page.tsx line 167. -/
def notePhenotype : String :=
  "Phenotype could not be confidently inferred from available annotations."

/-- page.tsx line 173: the single-mode "required gene missing" caveat. -/
def noteIncomplete (d g : String) : String :=
  "Analysis Incomplete: We couldn\x27t predict the risk for " ++ d ++
    " because the required gene data (" ++ g ++ ") is missing from this patient\x27s file."

/-- page.tsx line 180. -/
def noteBatchEmpty : String :=
  "No per-drug annotations were returned for this batch request."

/-- page.tsx line 184. -/
def noteBatchUnknown (n : ℕ) : String :=
  toString n ++ " drug result(s) include missing gene/phenotype annotations."

/-- page.tsx line 189: the batch-mode "required gene missing" caveat. -/
def noteBatchIncomplete (d g : String) : String :=
  "Analysis Incomplete: " ++ d ++ " requires " ++ g ++
    " data, which is missing in this VCF. Other available drug analyses are still shown."

/-- page.tsx lines 156-175: the single-result branch of
`collectAnnotationNotes`.  Each `if` mirrors one `notes.push` site, in
source order. -/
def singleNotes (s : SingleResult) : List String :=
  (if (s.quality_metrics.bind fun q => q.vcf_parsing_success) = some false
    then [noteParsing] else []) ++
  (if ((s.quality_metrics.bind fun q => q.variants_detected).getD 0) = 0
    then [noteNoVariants] else []) ++
  (if pgGene s = none ∨ pgGene s = some "" ∨ pgGene s = some "Unknown"
    then [noteGeneMissing] else []) ++
  (if pgPhenotype s = none ∨ pgPhenotype s = some "" ∨ pgPhenotype s = some "Unknown"
    then [notePhenotype] else []) ++
  (let drugName := jsToUpper (strOr s.drug "")
   let reportedGene := strOr (pgGene s) "Unknown"
   if drugName = "" then []
   else
     match lookupGene drugName with
     | none => []
     | some g =>
       if reportedGene = "" ∨ reportedGene = "Unknown" then [noteIncomplete drugName g]
       else [])

/-- page.tsx lines 177-193: the batch-result branch of
`collectAnnotationNotes`. -/
def batchNotes (b : BatchResult) : List String :=
  let entries := b.results.getD []
  if entries = [] then [noteBatchEmpty]
  else
    let unknownCount :=
      (entries.filter fun e =>
        decide (e.2.gene = none ∨ e.2.gene = some "" ∨ e.2.gene = some "Unknown" ∨
          e.2.phenotype = none ∨ e.2.phenotype = some "" ∨
          e.2.phenotype = some "Unknown")).length
    (if 0 < unknownCount then [noteBatchUnknown unknownCount] else []) ++
    entries.flatMap fun e =>
      match lookupGene (jsToUpper e.1) with
      | none => []
      | some g =>
        if e.2.gene = none ∨ e.2.gene = some "" ∨ e.2.gene = some "Unknown"
          then [noteBatchIncomplete e.1 g] else []

/-- page.tsx lines 153-196, `collectAnnotationNotes`. -/
def collectAnnotationNotes (single : Option SingleResult) (batch : Option BatchResult) :
    List String :=
  (match single with
   | some s => singleNotes s
   | none => []) ++
  (match batch with
   | some b => batchNotes b
   | none => [])

/-! ### File validation (page.tsx lines 53 and 198-218, `validateVcfFile`) -/

/-- page.tsx line 53: `MAX_FILE_SIZE = 5 * 1024 * 1024`. -/
def MAX_FILE_SIZE : ℕ := 5 * 1024 * 1024

/-- The possible outcomes of `validateVcfFile`; each failing constructor
stands for the exact message string returned at the corresponding source
line (the function returns `""` on success). -/
inductive VcfCheck where
  /-- page.tsx line 217: the empty string, i.e. the file is accepted. -/
  | ok
  /-- page.tsx line 199: "Upload Failed: Please upload a valid `.vcf` file under 5 MB." -/
  | invalidType
  /-- page.tsx line 200: "Upload Failed: File is too large. Maximum allowed size is 5.00 MB." -/
  | tooLarge
  /-- page.tsx line 203: "Upload Failed: The file appears empty or unreadable." -/
  | emptyFile
  /-- page.tsx line 208: "Upload Failed: This file is not a valid VCF (required VCF headers are missing)." -/
  | missingHeaders
  /-- page.tsx line 212: "Upload Failed: VCF structure is incomplete or corrupted (variant rows are missing)." -/
  | missingDataRows
deriving DecidableEq

/-- `"##fileformat=VCF"` as characters. -/
def fileformatHdr : List Char := "##fileformat=VCF".data

/-- `"#CHROM"` as characters. -/
def chromHdr : List Char := "#CHROM".data

/-- The 120-line window the validator inspects: the first 120 lines of the
first 12,000 characters of the file text (page.tsx lines 202-204). -/
def linesWindow (text : List Char) : List (List Char) :=
  (splitLines (text.take 12000)).take 120

/-- The data-row test of page.tsx line 210:
`!!line && !line.startsWith("#") && line.split("\t").length >= 8`. -/
def isDataRow (l : List Char) : Bool :=
  !l.isEmpty && !startsWithChars ['#'] l && decide (8 ≤ (splitOnChar '\t' l).length)

/-- page.tsx lines 198-218, `validateVcfFile`: the file is modelled by its
name, its byte size and its readable text (the read itself cannot fail in
the model, matching the claims, which all speak of readable files). -/
def validateVcfFile (name : String) (size : ℕ) (text : List Char) : VcfCheck :=
  if endsWithChars (lowerChars name.data) ".vcf".data = false then .invalidType
  else if MAX_FILE_SIZE < size then .tooLarge
  else
    let sample := text.take 12000
    if trimChars sample = [] then .emptyFile
    else
      let lines := (splitLines sample).take 120
      if (lines.any fun l => startsWithChars fileformatHdr l) = false ∨
          (lines.any fun l => startsWithChars chromHdr l) = false then .missingHeaders
      else if (lines.any isDataRow) = false then .missingDataRows
      else .ok

/-! ### Confidence rendering (page.tsx lines 220-233 and 280-303) -/

/-- JS `Math.round`: round half toward positive infinity. -/
def jsRound (x : ℚ) : ℤ := ⌊x + 1 / 2⌋

/-- JS `score || 0` for an optional numeric score (`0` is falsy, so the
branches coincide on `0`). -/
def jsOr0 (o : Option ℚ) : ℚ :=
  match o with
  | none => 0
  | some x => x

/-- page.tsx lines 287 and 298: `Math.round((confidence_score || 0) * 100)`. -/
def cardConfidence (score : Option ℚ) : ℤ :=
  jsRound (jsOr0 score * 100)

/-- page.tsx line 221: `Math.max(0, Math.min(100, value))`; the donut renders
exactly this clamped value as `{clamped}%`. -/
def donutClamp (value : ℤ) : ℤ :=
  max 0 (min 100 value)

/-! ### Error normalization (page.tsx lines 130-151, `toFriendlyApiError`) -/

/-- page.tsx lines 130-151: case-insensitive substring matching against a
fixed ordered phrase list, falling back to the original message or a generic
sentence. -/
def toFriendlyApiError (message : String) : String :=
  let m := jsToLower message
  if strIncludes m "file must be a .vcf" = true ∨ strIncludes m "invalid file type" = true then
    "Invalid file type. Please upload a `.vcf` genomic file."
  else if strIncludes m "file size exceeds" = true ∨ strIncludes m "too large" = true then
    "VCF file is too large. Maximum allowed size is 5 MB."
  else if strIncludes m "vcf headers are missing" = true ∨
      strIncludes m "does not look like a valid vcf" = true then
    "The uploaded file is not a valid VCF (required headers are missing)."
  else if strIncludes m "not found at path" = true then
    "The selected VCF path could not be found. Check the path and try again."
  else if strIncludes m "internal server error" = true then
    "The server could not complete this analysis. Please retry in a moment."
  else if strIncludes m "request failed (500)" = true then
    "Analysis could not be completed due to a server issue. Please retry in a moment."
  else if message = "" then "Analysis failed. Please review inputs and try again."
  else message

/-! ### The view state machine (page.tsx lines 247-430)

The state hooks of the `Home` component become the fields of `UiState`; its event
handlers become transition functions.  The uploaded `File` object is
abstracted to the flag `hasFile` (`file !== null`), since only its presence
is ever branched on by the handlers modelled here.  The in-flight `fetch` of
`handleAnalyze` is split at the `await`: `handleAnalyze` performs the
synchronous prefix and records the issued request in `inFlight`; the three
`api*` events deliver the response continuation. -/

/-- The request issued by `handleAnalyze` (page.tsx lines 407-423): either
the single-analysis or the batch submission.  Both also carry the `vcf` file
field, which is the same in either case and therefore not modelled. -/
inductive ApiRequest where
  | single (drug : String)
  | batch (drugs : String)
deriving DecidableEq

/-- The endpoint a request is posted to (page.tsx lines 413 and 419). -/
def requestUrl : ApiRequest → String
  | .single _ => "http://127.0.0.1:8000/analyze"
  | .batch _ => "http://127.0.0.1:8000/analyze/batch"

/-- The drug form field a request carries (page.tsx lines 412 and 418). -/
def requestField : ApiRequest → String × String
  | .single d => ("drug", d)
  | .batch ds => ("drugs", ds)

/-- The `useState` hooks of `Home` (page.tsx lines 248-263) that the claims
depend on, plus `inFlight` for the suspended request. -/
structure UiState where
  hasFile : Bool
  fileError : String
  apiError : String
  inputError : String
  loading : Bool
  drugInput : String
  selectedDrugs : List String
  multiMode : Bool
  singleResult : Option SingleResult
  batchResult : Option BatchResult
  inFlight : Option ApiRequest
deriving DecidableEq

/-- The initial state (page.tsx lines 248-263: `useState` initializers). -/
def initState : UiState :=
  { hasFile := false, fileError := "", apiError := "", inputError := "",
    loading := false, drugInput := "CLOPIDOGREL", selectedDrugs := ["CLOPIDOGREL"],
    multiMode := false, singleResult := none, batchResult := none, inFlight := none }

/-- page.tsx lines 348-354 and 383-385: push each token not already present,
preserving order. -/
def mergeUnique (prev tokens : List String) : List String :=
  tokens.foldl (fun acc t => if t ∈ acc then acc else acc ++ [t]) prev

/-- page.tsx lines 340-360, `addDrug`: each branch is written as the net
effect of the `setState` calls of the source on that path. -/
def addDrug (s : UiState) (drug : String) : UiState :=
  let tokens := parseDrugTokens drug
  if tokens = [] then s
  else if tokens.any (fun t => !jsTokenOk t) then
    { s with inputError := "Drug name contains unsupported characters." }
  else if s.multiMode then
    { s with selectedDrugs := mergeUnique s.selectedDrugs tokens,
             drugInput := "", inputError := "" }
  else
    { s with selectedDrugs := [tokens.headD ""], drugInput := "", inputError := "" }

/-- page.tsx lines 362-364, `removeDrug`. -/
def removeDrug (s : UiState) (drug : String) : UiState :=
  { s with selectedDrugs := s.selectedDrugs.filter (fun d => d ≠ drug) }

/-- page.tsx lines 366-372, `setMode` (`multi := (mode == "multi")`). -/
def setMode (s : UiState) (multi : Bool) : UiState :=
  if multi = false ∧ 1 < s.selectedDrugs.length then
    { s with multiMode := multi, selectedDrugs := [s.selectedDrugs.headD ""] }
  else { s with multiMode := multi }

/-- page.tsx lines 646-655: the "Keep one" button, rendered only when more
than one drug is selected. -/
def keepOne (s : UiState) : UiState :=
  if 1 < s.selectedDrugs.length then { s with selectedDrugs := [s.selectedDrugs.headD ""] }
  else s

/-- page.tsx line 606: the drug input `onChange` uppercases the typed text. -/
def drugInputChange (s : UiState) (raw : String) : UiState :=
  { s with drugInput := jsToUpper raw }

/-- page.tsx lines 324-338, `assignFile`: clears both error banners, then
either installs a validated file or records the validation failure.  The
file itself is abstracted to the `ok` outcome of `validateVcfFile`. -/
def assignFile (s : UiState) (ok : Bool) : UiState :=
  if ok then { s with hasFile := true, fileError := "", apiError := "" }
  else { s with hasFile := false, fileError := "Upload Failed.", apiError := "" }

/-- page.tsx lines 379-391: the effective drug list `handleAnalyze` submits,
merging any comma-separated tokens still pending in the input box. -/
def effectiveDrugsOf (s : UiState) : List String :=
  let pending := parseDrugTokens s.drugInput
  if pending = [] then s.selectedDrugs
  else if s.multiMode then mergeUnique s.selectedDrugs pending
  else [pending.headD ""]

/-- page.tsx lines 374-430, `handleAnalyze`, up to the `await`: guarded by
the disabled-while-loading button (line 675), it clears the error banners,
merges pending tokens, validates file and drug presence, clears both result
slots and issues exactly one request chosen by
`!multiMode || effectiveDrugs.length === 1` (line 411). -/
def handleAnalyze (s : UiState) : UiState :=
  if s.loading = true then s
  else
    let eff := effectiveDrugsOf s
    let newSelected := if parseDrugTokens s.drugInput = [] then s.selectedDrugs else eff
    let newInput := if parseDrugTokens s.drugInput = [] then s.drugInput else ""
    if s.hasFile = false then
      { s with inputError := "", apiError := "", selectedDrugs := newSelected,
               drugInput := newInput, fileError := "Please upload a valid VCF file." }
    else if eff = [] then
      { s with apiError := "", selectedDrugs := newSelected, drugInput := newInput,
               inputError := "Select at least one drug." }
    else
      let req := if s.multiMode = false ∨ eff.length = 1
                 then ApiRequest.single (eff.headD "")
                 else ApiRequest.batch (String.intercalate "," eff)
      { s with inputError := "", apiError := "", selectedDrugs := newSelected,
               drugInput := newInput, singleResult := none, batchResult := none,
               loading := true, inFlight := some req }

/-- page.tsx lines 414-416: a 2xx single-analysis response installs the
parsed `SingleResult`; the `finally` clause ends loading. -/
def applySingleSuccess (s : UiState) (r : SingleResult) : UiState :=
  match s.inFlight with
  | some (.single _) =>
    { s with singleResult := some r, loading := false, inFlight := none }
  | _ => s

/-- page.tsx lines 420-422: a 2xx batch response installs the parsed
`BatchResult`; the `finally` clause ends loading. -/
def applyBatchSuccess (s : UiState) (b : BatchResult) : UiState :=
  match s.inFlight with
  | some (.batch _) =>
    { s with batchResult := some b, loading := false, inFlight := none }
  | _ => s

/-- page.tsx lines 424-429: any thrown error is normalized into `apiError`;
the `finally` clause ends loading.  The discarded results stay empty. -/
def applyFailure (s : UiState) (msg : String) : UiState :=
  match s.inFlight with
  | some _ => { s with apiError := toFriendlyApiError msg, loading := false, inFlight := none }
  | none => s

/-- The user/network events that drive the view state. -/
inductive Event where
  | modeSet (multi : Bool)
  | inputChanged (raw : String)
  | drugAdded (input : String)
  | drugRemoved (d : String)
  | keptOne
  | fileChanged (ok : Bool)
  | analyzeClicked
  | apiSingleSuccess (r : SingleResult)
  | apiBatchSuccess (b : BatchResult)
  | apiFailure (msg : String)

/-- Dispatch one event to its handler. -/
def stepFn (s : UiState) : Event → UiState
  | .modeSet multi => setMode s multi
  | .inputChanged raw => drugInputChange s raw
  | .drugAdded input => addDrug s input
  | .drugRemoved d => removeDrug s d
  | .keptOne => keepOne s
  | .fileChanged ok => assignFile s ok
  | .analyzeClicked => handleAnalyze s
  | .apiSingleSuccess r => applySingleSuccess s r
  | .apiBatchSuccess b => applyBatchSuccess s b
  | .apiFailure msg => applyFailure s msg

/-- The view states reachable from the initial render. -/
inductive Reachable : UiState → Prop where
  | init : Reachable initState
  | step : ∀ {s : UiState} (e : Event), Reachable s → Reachable (stepFn s e)

/-! ### Concrete states and results used to instantiate the theorems -/

/-- A parse-failure single result: `quality_metrics.vcf_parsing_success = false`. -/
def parseFailResult : SingleResult :=
  { baseSingle with
    quality_metrics := some
      { total_variants_analyzed := none, variants_detected := none,
        vcf_parsing_success := some false } }

/-- A WARFARIN single result with the whole pharmacogenomic profile absent. -/
def warfarinResult : SingleResult := { baseSingle with drug := some "WARFARIN" }

/-- A single result for a drug outside `DRUG_PRIMARY_GENE`. -/
def aspirinResult : SingleResult := { baseSingle with drug := some "ASPIRIN" }

/-- Multi mode toggled on, a second drug added, a validated file assigned. -/
def twoDrugState : UiState :=
  stepFn (stepFn (stepFn initState (Event.modeSet true)) (Event.drugAdded "ASPIRIN"))
    (Event.fileChanged true)

/-- A validated file assigned, then a successful single analysis. -/
def afterSingleState : UiState :=
  stepFn (stepFn (stepFn initState (Event.fileChanged true)) Event.analyzeClicked)
    (Event.apiSingleSuccess baseSingle)

/-- The text "X!" typed into the drug box (never added), a validated file
assigned. -/
def pendingBangState : UiState :=
  stepFn (stepFn initState (Event.inputChanged "X!")) (Event.fileChanged true)

/-- A VCF sample passing all content checks. -/
def goodVcfText : List Char :=
  "##fileformat=VCFv4.2\n#CHROM\tPOS\tID\tREF\tALT\tQUAL\tFILTER\tINFO\n1\t100\trs1\tA\tT\t50\tPASS\tDP=10".data

/-- A file text whose first line is 12,001 characters of filler, followed by
a fully well-formed VCF: its first 120 *lines* contain every required
element, but the 12,000-character sample of the validator cuts the headers off. -/
def longLineVcfText : List Char :=
  List.replicate 12001 'A' ++
    ("\n##fileformat=VCFv4.2\n#CHROM\tPOS\n1\t100\trs1\tA\tT\t50\tPASS\tDP=10".data)

/-- Modelled from the words of claim C6: the first 120 lines of the raw file
text (the source instead takes the first 120 lines of the first 12,000
characters, `linesWindow`). -/
def claimWindow (text : List Char) : List (List Char) :=
  (splitLines text).take 120

/-! ### C2: risk-tone classification -/

/-- C2 (corrected): the classifier is case-insensitive, and `adjust`,
`toxic` and `ineffective` are matched as substrings in that priority order,
but the safe tone requires the lowercased label to equal `"safe"` exactly
rather than merely contain it. -/
theorem c2_tone_classification (label : String) :
    (toneFor (some label) = Tone.safe ↔ jsToLower label = "safe") ∧
    (toneFor (some label) = Tone.adjust ↔
      jsToLower label ≠ "safe" ∧ strIncludes (jsToLower label) "adjust" = true) ∧
    (toneFor (some label) = Tone.toxic ↔
      jsToLower label ≠ "safe" ∧ strIncludes (jsToLower label) "adjust" = false ∧
        (strIncludes (jsToLower label) "toxic" = true ∨
          strIncludes (jsToLower label) "ineffective" = true)) ∧
    (toneFor (some label) = Tone.unknown ↔
      jsToLower label ≠ "safe" ∧ strIncludes (jsToLower label) "adjust" = false ∧
        strIncludes (jsToLower label) "toxic" = false ∧
        strIncludes (jsToLower label) "ineffective" = false) := by
  have hv : strOr (some label) "" = label := by
    unfold strOr
    split <;> simp_all
  simp only [toneFor, hv]
  split_ifs with h1 h2 h3 <;> simp_all <;> intro htox <;> rcases h3 with h | h <;> simp_all

/-- C2 counterexample: `"unsafe"` contains `"safe"` (case-insensitively), so
under the claim it would get the safe tone, but the code classifies it as
unknown. -/
theorem c2_counterexample :
    strIncludes (jsToLower "unsafe") "safe" = true ∧
      toneFor (some "unsafe") = Tone.unknown ∧ toneFor (some "unsafe") ≠ Tone.safe := by
  decide

/-! ### C9: confidence rendering -/

/-- C9: the donut renders `max 0 (min 100 (round (s * 100)))` for a
confidence score `s`; in particular `1.37` renders as `100` and `-0.2`
renders as `0`. -/
theorem c9_confidence_clamped :
    (∀ s : ℚ, donutClamp (cardConfidence (some s)) = max 0 (min 100 (jsRound (s * 100)))) ∧
    donutClamp (cardConfidence (some (137 / 100))) = 100 ∧
    donutClamp (cardConfidence (some (-(1 / 5)))) = 0 := by
  refine ⟨fun s => rfl, ?_, ?_⟩ <;>
    norm_num [donutClamp, cardConfidence, jsOr0, jsRound]

/-! ### C4: size rejection -/

/-- C4 (corrected): a file of 5,242,881 bytes or more is rejected as too
large regardless of its content, provided its name ends in `.vcf`
(case-insensitively); a larger file with a different extension is instead
rejected by the earlier file-type check. -/
theorem c4_size_rejection (name : String) (size : ℕ) (text : List Char)
    (hname : endsWithChars (lowerChars name.data) ".vcf".data = true)
    (hsize : 5242881 ≤ size) :
    validateVcfFile name size text = VcfCheck.tooLarge := by
  have h1 : MAX_FILE_SIZE < size := by
    simp only [MAX_FILE_SIZE]
    omega
  simp [validateVcfFile, hname, h1]

/-- C4 witness: a 5,242,881-byte `.vcf` file is rejected for size. -/
theorem c4_size_rejection_witness :
    endsWithChars (lowerChars "A.VCF".data) ".vcf".data = true ∧
      validateVcfFile "A.VCF" 5242881 [] = VcfCheck.tooLarge :=
  ⟨by decide, c4_size_rejection "A.VCF" 5242881 [] (by decide) (by omega)⟩

/-- C4 counterexample: a 5,242,881-byte file named `a.txt` is rejected with
the invalid-file-type reason, not the too-large reason, refuting
"regardless of the extension of its name". -/
theorem c4_counterexample :
    validateVcfFile "a.txt" 5242881 [] = VcfCheck.invalidType ∧
      validateVcfFile "a.txt" 5242881 [] ≠ VcfCheck.tooLarge := by
  decide

/-! ### C7 and C10: annotation-gap caveats from quality metrics -/

/-- C7: whenever `quality_metrics.vcf_parsing_success` is explicitly
`false`, the caveat list contains the parsing caveat, whatever the other
fields and whatever the batch slot holds. -/
theorem c7_parsing_caveat (s : SingleResult) (b : Option BatchResult)
    (h : (s.quality_metrics.bind fun q => q.vcf_parsing_success) = some false) :
    noteParsing ∈ collectAnnotationNotes (some s) b := by
  simp [collectAnnotationNotes, singleNotes, h]

/-- C7 witness at a concrete result. -/
theorem c7_parsing_caveat_witness :
    noteParsing ∈ collectAnnotationNotes (some parseFailResult) none :=
  c7_parsing_caveat parseFailResult none (by decide)

/-- C10: when `quality_metrics` or its `variants_detected` field is absent,
the detector reads the detected-variant count as `0` and emits the
no-variants caveat. -/
theorem c10_absent_metrics (s : SingleResult) (b : Option BatchResult)
    (h : s.quality_metrics = none ∨
      (s.quality_metrics.bind fun q => q.variants_detected) = none) :
    ((s.quality_metrics.bind fun q => q.variants_detected).getD 0 = 0) ∧
      noteNoVariants ∈ collectAnnotationNotes (some s) b := by
  have h0 : (s.quality_metrics.bind fun q => q.variants_detected) = none := by
    rcases h with h | h
    · simp [h]
    · exact h
  refine ⟨by simp [h0], ?_⟩
  simp [collectAnnotationNotes, singleNotes, h0]

/-- C10 witness at a concrete result with `quality_metrics` wholly absent. -/
theorem c10_absent_metrics_witness :
    ((baseSingle.quality_metrics.bind fun q => q.variants_detected).getD 0 = 0) ∧
      noteNoVariants ∈ collectAnnotationNotes (some baseSingle) none :=
  c10_absent_metrics baseSingle none (Or.inl rfl)

/-! ### C8: the required-gene caveat and the drug table -/

theorem noteIncomplete_head (d g : String) :
    (noteIncomplete d g).data.head? = some 'A' := rfl

theorem noteIncomplete_ne_fixed (d g : String) :
    noteIncomplete d g ≠ noteParsing ∧ noteIncomplete d g ≠ noteNoVariants ∧
      noteIncomplete d g ≠ noteGeneMissing ∧ noteIncomplete d g ≠ notePhenotype := by
  refine ⟨fun h => ?_, fun h => ?_, fun h => ?_, fun h => ?_⟩ <;>
    · have h2 := noteIncomplete_head d g
      rw [h] at h2
      exact absurd h2 (by decide)

/-- C8: a WARFARIN result whose reported primary gene is absent gets the
"analysis incomplete" caveat naming WARFARIN and CYP2C9; and a drug whose
uppercased name is outside `DRUG_PRIMARY_GENE` can never produce that caveat
for any drug/gene pair. -/
theorem c8_required_gene_caveat :
    (∀ (s : SingleResult) (b : Option BatchResult),
      s.drug = some "WARFARIN" → pgGene s = none →
      noteIncomplete "WARFARIN" "CYP2C9" ∈ collectAnnotationNotes (some s) b) ∧
    (∀ (s : SingleResult) (d g : String),
      lookupGene (jsToUpper (strOr s.drug "")) = none →
      noteIncomplete d g ∉ collectAnnotationNotes (some s) none) := by
  constructor
  · intro s b hdrug hpg
    have e1 : jsToUpper (strOr s.drug "") = "WARFARIN" := by
      rw [hdrug]
      decide
    have e2 : lookupGene "WARFARIN" = some "CYP2C9" := by decide
    have e3 : strOr (none : Option String) "Unknown" = "Unknown" := rfl
    simp [collectAnnotationNotes, singleNotes, e1, e2, e3, hpg]
  · intro s d g hlk hmem
    obtain ⟨n1, n2, n3, n4⟩ := noteIncomplete_ne_fixed d g
    simp only [collectAnnotationNotes, singleNotes, hlk, List.append_nil] at hmem
    split_ifs at hmem <;> simp_all

/-- C8 witness: a profile-less WARFARIN result gets the caveat, and no
incomplete-style caveat at all arises for ASPIRIN (absent from the table). -/
theorem c8_required_gene_caveat_witness :
    noteIncomplete "WARFARIN" "CYP2C9" ∈ collectAnnotationNotes (some warfarinResult) none ∧
      noteIncomplete "ASPIRIN" "CYP2C9" ∉ collectAnnotationNotes (some aspirinResult) none :=
  ⟨c8_required_gene_caveat.1 warfarinResult none (by decide) (by decide),
    c8_required_gene_caveat.2 aspirinResult "ASPIRIN" "CYP2C9" (by decide)⟩

/-! ### The state-machine invariants behind C1, C3 and C5 -/

/-- While multi mode is off, at most one drug is ever selected: `setMode`
truncates when leaving multi mode, `addDrug` replaces the selection in
single mode, and the other handlers never grow the selection. -/
theorem selected_le_one_of_single_mode {s : UiState} (h : Reachable s) :
    s.multiMode = false → s.selectedDrugs.length ≤ 1 := by
  induction h with
  | init =>
    intro _
    simp [initState]
  | @step t e hr ih =>
    cases e with
    | modeSet multi =>
      intro hm
      simp only [stepFn, setMode] at hm ⊢
      split_ifs at hm ⊢ with hc
      · simp
      · dsimp only at hm ⊢
        rw [hm] at hc
        push_neg at hc
        have := hc rfl
        omega
    | inputChanged raw =>
      intro hm
      simp only [stepFn, drugInputChange] at hm ⊢
      exact ih hm
    | drugAdded input =>
      intro hm
      simp only [stepFn, addDrug] at hm ⊢
      split_ifs at hm ⊢ with h1 h2 h3
      · exact ih hm
      · exact ih hm
      · dsimp only at hm
        rw [hm] at h3
        exact absurd h3 (by simp)
      · simp
    | drugRemoved d =>
      intro hm
      simp only [stepFn, removeDrug] at hm ⊢
      exact le_trans (List.length_filter_le _ _) (ih hm)
    | keptOne =>
      intro hm
      simp only [stepFn, keepOne] at hm ⊢
      split_ifs at hm ⊢ with hc
      · simp
      · exact ih hm
    | fileChanged ok =>
      intro hm
      simp only [stepFn, assignFile] at hm ⊢
      split_ifs at hm ⊢ <;> exact ih hm
    | analyzeClicked =>
      intro hm
      simp only [stepFn, handleAnalyze] at hm ⊢
      by_cases h1 : t.loading = true
      · rw [if_pos h1] at hm ⊢
        exact ih hm
      · rw [if_neg h1] at hm ⊢
        have heff : t.multiMode = false → (effectiveDrugsOf t).length ≤ 1 := by
          intro hm'
          simp only [effectiveDrugsOf]
          split_ifs with hp hq
          · exact ih hm'
          · simp [hq] at hm'
          · simp
        split_ifs at hm ⊢ <;> dsimp only at hm ⊢ <;>
          first
            | exact ih hm
            | exact heff hm
    | apiSingleSuccess r =>
      intro hm
      simp only [stepFn, applySingleSuccess] at hm ⊢
      rcases hif : t.inFlight with _ | req
      · simp only [hif] at hm ⊢
        exact ih hm
      · rcases req with d | ds <;> simp only [hif] at hm ⊢ <;> exact ih hm
    | apiBatchSuccess b =>
      intro hm
      simp only [stepFn, applyBatchSuccess] at hm ⊢
      rcases hif : t.inFlight with _ | req
      · simp only [hif] at hm ⊢
        exact ih hm
      · rcases req with d | ds <;> simp only [hif] at hm ⊢ <;> exact ih hm
    | apiFailure msg =>
      intro hm
      simp only [stepFn, applyFailure] at hm ⊢
      rcases hif : t.inFlight with _ | req
      · simp only [hif] at hm ⊢
        exact ih hm
      · simp only [hif] at hm ⊢
        exact ih hm

/-- The result-slot invariant: while a request is in flight both slots are
empty (they are cleared when the request is issued), and in every reachable
state at most one slot is populated. -/
theorem results_invariant {s : UiState} (h : Reachable s) :
    (s.inFlight.isSome = true → s.singleResult = none ∧ s.batchResult = none) ∧
      ¬(s.singleResult.isSome = true ∧ s.batchResult.isSome = true) := by
  induction h with
  | init => simp [initState]
  | @step t e hr ih =>
    obtain ⟨ih1, ih2⟩ := ih
    cases e with
    | modeSet multi =>
      simp only [stepFn, setMode]
      split_ifs <;> exact ⟨ih1, ih2⟩
    | inputChanged raw =>
      simp only [stepFn, drugInputChange]
      exact ⟨ih1, ih2⟩
    | drugAdded input =>
      simp only [stepFn, addDrug]
      split_ifs <;> exact ⟨ih1, ih2⟩
    | drugRemoved d =>
      simp only [stepFn, removeDrug]
      exact ⟨ih1, ih2⟩
    | keptOne =>
      simp only [stepFn, keepOne]
      split_ifs <;> exact ⟨ih1, ih2⟩
    | fileChanged ok =>
      simp only [stepFn, assignFile]
      split_ifs <;> exact ⟨ih1, ih2⟩
    | analyzeClicked =>
      simp only [stepFn, handleAnalyze]
      split_ifs <;> (try dsimp only) <;>
        first
          | exact ⟨ih1, ih2⟩
          | exact ⟨fun _ => ⟨rfl, rfl⟩, by simp⟩
    | apiSingleSuccess r =>
      simp only [stepFn, applySingleSuccess]
      rcases hif : t.inFlight with _ | req
      · dsimp only
        exact ⟨ih1, ih2⟩
      · rcases req with d | ds
        · obtain ⟨hs, hb⟩ := ih1 (by rw [hif]; rfl)
          dsimp only
          exact ⟨fun hcon => absurd hcon (by decide), by simp [hb]⟩
        · dsimp only
          exact ⟨fun _ => ih1 (by rw [hif]; rfl), ih2⟩
    | apiBatchSuccess b =>
      simp only [stepFn, applyBatchSuccess]
      rcases hif : t.inFlight with _ | req
      · dsimp only
        exact ⟨ih1, ih2⟩
      · rcases req with d | ds
        · dsimp only
          exact ⟨fun _ => ih1 (by rw [hif]; rfl), ih2⟩
        · obtain ⟨hs, hb⟩ := ih1 (by rw [hif]; rfl)
          dsimp only
          exact ⟨fun hcon => absurd hcon (by decide), by simp [hs]⟩
    | apiFailure msg =>
      simp only [stepFn, applyFailure]
      rcases hif : t.inFlight with _ | req
      · dsimp only
        exact ⟨ih1, ih2⟩
      · dsimp only
        exact ⟨fun hcon => absurd hcon (by decide), ih2⟩

/-! ### C3: the result-slot invariant -/

/-- C3 (corrected): in every reachable view state *at most* one of the two
result slots is populated; both may be empty (initially, while a request is
in flight, and after a failed analysis). -/
theorem c3_at_most_one_result (s : UiState) (h : Reachable s) :
    ¬(s.singleResult.isSome = true ∧ s.batchResult.isSome = true) :=
  (results_invariant h).2

/-- C3 counterexample: the initial view state is reachable and has *neither*
slot populated, refuting "exactly one slot is populated in every reachable
view state". -/
theorem c3_counterexample :
    Reachable initState ∧ initState.singleResult = none ∧ initState.batchResult = none :=
  ⟨Reachable.init, rfl, rfl⟩

/-- C3 witness: a reachable state holding a delivered single result. -/
theorem c3_at_most_one_result_witness :
    ¬(afterSingleState.singleResult.isSome = true ∧
        afterSingleState.batchResult.isSome = true) :=
  c3_at_most_one_result afterSingleState
    (Reachable.step (Event.apiSingleSuccess baseSingle)
      (Reachable.step Event.analyzeClicked
        (Reachable.step (Event.fileChanged true) Reachable.init)))

/-! ### C1: request routing -/

/-- C1: a submission with a validated file and a non-empty effective drug
list issues the single request (one `drug` field, single endpoint) whenever
exactly one drug is effective — multi mode notwithstanding — and the batch
request (comma-joined `drugs` field, batch endpoint) whenever two or more
drugs are effective. -/
theorem c1_request_routing (s : UiState) (h : Reachable s) (hload : s.loading = false)
    (hfile : s.hasFile = true) (hne : effectiveDrugsOf s ≠ []) :
    ((effectiveDrugsOf s).length = 1 →
      (handleAnalyze s).inFlight = some (ApiRequest.single ((effectiveDrugsOf s).headD "")) ∧
      requestUrl (ApiRequest.single ((effectiveDrugsOf s).headD "")) =
        "http://127.0.0.1:8000/analyze" ∧
      requestField (ApiRequest.single ((effectiveDrugsOf s).headD "")) =
        ("drug", (effectiveDrugsOf s).headD "")) ∧
    (2 ≤ (effectiveDrugsOf s).length →
      (handleAnalyze s).inFlight =
        some (ApiRequest.batch (String.intercalate "," (effectiveDrugsOf s))) ∧
      requestUrl (ApiRequest.batch (String.intercalate "," (effectiveDrugsOf s))) =
        "http://127.0.0.1:8000/analyze/batch" ∧
      requestField (ApiRequest.batch (String.intercalate "," (effectiveDrugsOf s))) =
        ("drugs", String.intercalate "," (effectiveDrugsOf s))) := by
  have hflight : (handleAnalyze s).inFlight =
      some (if s.multiMode = false ∨ (effectiveDrugsOf s).length = 1
            then ApiRequest.single ((effectiveDrugsOf s).headD "")
            else ApiRequest.batch (String.intercalate "," (effectiveDrugsOf s))) := by
    simp only [handleAnalyze]
    rw [if_neg (by rw [hload]; simp), if_neg (by rw [hfile]; simp), if_neg hne]
  constructor
  · intro hlen
    rw [hflight, if_pos (Or.inr hlen)]
    exact ⟨rfl, rfl, rfl⟩
  · intro hlen
    have hmulti : s.multiMode = true := by
      by_contra hmf
      have hmf' : s.multiMode = false := by
        revert hmf
        cases s.multiMode <;> simp
      have hle : (effectiveDrugsOf s).length ≤ 1 := by
        simp only [effectiveDrugsOf]
        split_ifs with hp
        · exact selected_le_one_of_single_mode h hmf'
        · simp [hmf']
      omega
    rw [hflight, if_neg (by rw [hmulti]; simp; omega)]
    exact ⟨rfl, rfl, rfl⟩

/-- C1 witness: with multi mode on, CLOPIDOGREL and ASPIRIN selected and a
validated file, analyzing issues the batch request with the comma-joined
drug list. -/
theorem c1_request_routing_witness :
    (handleAnalyze twoDrugState).inFlight =
      some (ApiRequest.batch "CLOPIDOGREL,ASPIRIN") := by
  have h : Reachable twoDrugState :=
    Reachable.step (Event.fileChanged true)
      (Reachable.step (Event.drugAdded "ASPIRIN")
        (Reachable.step (Event.modeSet true) Reachable.init))
  have h2 := (c1_request_routing twoDrugState h (by decide) (by decide) (by decide)).2
    (by decide)
  have h3 : String.intercalate "," (effectiveDrugsOf twoDrugState) = "CLOPIDOGREL,ASPIRIN" := by
    decide
  rw [h3] at h2
  exact h2.1

/-! ### C5: drug-token validation -/

/-- C5 (corrected): in `addDrug`, an input producing any token outside the
source character class `[A-Z0-9\-\s]` (whitespace, not only space) is
rejected wholesale — the selection, pending input and mode are untouched and
the validation error is set.  (Tokens still pending in the input box when
Analyze is clicked bypass this check; see the counterexample.) -/
theorem c5_invalid_token_rejected (s : UiState) (input : String)
    (h : (parseDrugTokens input).any (fun t => !jsTokenOk t) = true) :
    addDrug s input = { s with inputError := "Drug name contains unsupported characters." } := by
  have hne : parseDrugTokens input ≠ [] := by
    intro h0
    rw [h0] at h
    simp at h
  simp only [addDrug]
  rw [if_neg hne, if_pos h]

/-- C5 witness: the input `"X!"` is rejected by `addDrug` and changes
nothing but the error banner. -/
theorem c5_invalid_token_rejected_witness :
    ((parseDrugTokens "X!").any (fun t => !jsTokenOk t) = true) ∧
      addDrug initState "X!" =
        { initState with inputError := "Drug name contains unsupported characters." } :=
  ⟨by decide, c5_invalid_token_rejected initState "X!" (by decide)⟩

/-- C5 counterexample: with `"X!"` still pending in the drug input box (a
reachable state), clicking Analyze sends the request for drug `"X!"` and
installs it as the selection, although `"X!"` fails the character
class — refuting "no token from that input is … sent in a request". -/
theorem c5_counterexample :
    Reachable pendingBangState ∧ claimTokenOk "X!" = false ∧
      parseDrugTokens pendingBangState.drugInput = ["X!"] ∧
      (stepFn pendingBangState Event.analyzeClicked).inFlight =
        some (ApiRequest.single "X!") ∧
      (stepFn pendingBangState Event.analyzeClicked).selectedDrugs = ["X!"] :=
  ⟨Reachable.step (Event.fileChanged true)
      (Reachable.step (Event.inputChanged "X!") Reachable.init),
    by decide, by decide, by decide, by decide⟩

/-! ### C6: content validation -/

theorem startsWithChars_cons_ex {n : Char} {ns l : List Char}
    (h : startsWithChars (n :: ns) l = true) : ∃ t, l = n :: t := by
  cases l with
  | nil => simp [startsWithChars] at h
  | cons x xs =>
    simp only [startsWithChars, Bool.and_eq_true, beq_iff_eq] at h
    exact ⟨xs, by rw [h.1]⟩

/-- Every character of every produced line comes from the input (or from the
pending accumulator). -/
theorem mem_splitLinesAux (l acc : List Char) :
    ∀ line ∈ splitLinesAux l acc, ∀ c ∈ line, c ∈ l ∨ c ∈ acc := by
  induction l, acc using splitLinesAux.induct with
  | case1 acc =>
    intro line hline c hc
    rw [splitLinesAux.eq_1] at hline
    simp at hline
    subst hline
    right
    simpa using hc
  | case2 rest acc ih =>
    intro line hline c hc
    rw [show splitLinesAux ('\n' :: rest) acc = acc.reverse :: splitLinesAux rest []
        from rfl] at hline
    rcases List.mem_cons.mp hline with h | h
    · subst h
      right
      simpa using hc
    · rcases ih line h c hc with h2 | h2
      · exact Or.inl (List.mem_cons_of_mem _ h2)
      · simp at h2
  | case3 rest acc ih =>
    intro line hline c hc
    rw [show splitLinesAux ('\r' :: '\n' :: rest) acc = acc.reverse :: splitLinesAux rest []
        from rfl] at hline
    rcases List.mem_cons.mp hline with h | h
    · subst h
      right
      simpa using hc
    · rcases ih line h c hc with h2 | h2
      · exact Or.inl (List.mem_cons_of_mem _ (List.mem_cons_of_mem _ h2))
      · simp at h2
  | case4 c0 rest acc h1 h2 ih =>
    intro line hline c hc
    rw [splitLinesAux.eq_4 acc c0 rest h1 h2] at hline
    rcases ih line hline c hc with h3 | h3
    · exact Or.inl (List.mem_cons_of_mem _ h3)
    · rcases List.mem_cons.mp h3 with h4 | h4
      · exact Or.inl (h4 ▸ List.mem_cons_self _ _)
      · exact Or.inr h4

/-- An all-whitespace sample trims to nothing, so every character of an
untrimmable sample is whitespace. -/
theorem all_ws_of_trim_nil {l : List Char} (h : trimChars l = []) :
    ∀ c ∈ l, isJsWs c = true := by
  unfold trimChars at h
  rw [List.reverse_eq_nil_iff] at h
  have h3 : ∀ c ∈ l.dropWhile isJsWs, isJsWs c = true := by
    intro c hc
    exact List.dropWhile_eq_nil_iff.mp h c (List.mem_reverse.mpr hc)
  intro c hc
  rw [← List.takeWhile_append_dropWhile (p := isJsWs) (l := l)] at hc
  rcases List.mem_append.mp hc with h4 | h4
  · exact List.mem_takeWhile_imp h4
  · exact h3 c h4

/-- C6 (corrected): over the window the validator actually inspects — the
first 120 lines of the first 12,000 characters — a sample containing a
`##fileformat=VCF` line, a `#CHROM` line and a non-comment row of at least 8
tab-separated fields is accepted; a non-blank sample missing either header
line in that window is rejected for missing headers; and a sample with both
headers but no qualifying data row is rejected for missing variant rows. -/
theorem c6_content_validation (name : String) (size : ℕ) (text : List Char)
    (hname : endsWithChars (lowerChars name.data) ".vcf".data = true)
    (hsize : size ≤ MAX_FILE_SIZE) :
    (((linesWindow text).any fun l => startsWithChars fileformatHdr l) = true →
      ((linesWindow text).any fun l => startsWithChars chromHdr l) = true →
      ((linesWindow text).any isDataRow) = true →
      validateVcfFile name size text = VcfCheck.ok) ∧
    (trimChars (text.take 12000) ≠ [] →
      (((linesWindow text).any fun l => startsWithChars fileformatHdr l) = false ∨
        ((linesWindow text).any fun l => startsWithChars chromHdr l) = false) →
      validateVcfFile name size text = VcfCheck.missingHeaders) ∧
    (((linesWindow text).any fun l => startsWithChars fileformatHdr l) = true →
      ((linesWindow text).any fun l => startsWithChars chromHdr l) = true →
      ((linesWindow text).any isDataRow) = false →
      validateVcfFile name size text = VcfCheck.missingDataRows) := by
  have hn' : ¬(endsWithChars (lowerChars name.data) ".vcf".data = false) := by
    rw [hname]
    simp
  have hs' : ¬(MAX_FILE_SIZE < size) := by omega
  have htrim : ((linesWindow text).any fun l => startsWithChars fileformatHdr l) = true →
      trimChars (text.take 12000) ≠ [] := by
    intro hany hnil
    rw [List.any_eq_true] at hany
    rcases hany with ⟨line, hline, hpre⟩
    rw [show fileformatHdr = '#' :: "#fileformat=VCF".data from rfl] at hpre
    obtain ⟨t, ht⟩ := startsWithChars_cons_ex hpre
    have hmem : '#' ∈ line := by
      rw [ht]
      exact List.mem_cons_self _ _
    have hline2 : line ∈ splitLines (text.take 12000) := List.mem_of_mem_take hline
    have hchar : '#' ∈ text.take 12000 := by
      rcases mem_splitLinesAux (text.take 12000) [] line hline2 '#' hmem with h | h
      · exact h
      · simp at h
    exact absurd (all_ws_of_trim_nil hnil '#' hchar) (by decide)
  refine ⟨?_, ?_, ?_⟩
  · intro h1 h2 h3
    have ht := htrim h1
    simp only [linesWindow] at h1 h2 h3
    simp only [validateVcfFile]
    rw [if_neg hn', if_neg hs', if_neg ht,
      if_neg (by rw [h1, h2]; simp), if_neg (by rw [h3]; simp)]
  · intro htr hone
    simp only [linesWindow] at hone
    simp only [validateVcfFile]
    rw [if_neg hn', if_neg hs', if_neg htr, if_pos hone]
  · intro h1 h2 h3
    have ht := htrim h1
    simp only [linesWindow] at h1 h2 h3
    simp only [validateVcfFile]
    rw [if_neg hn', if_neg hs', if_neg ht,
      if_neg (by rw [h1, h2]; simp), if_pos h3]

/-- C6 witness: a well-formed small VCF sample is accepted. -/
theorem c6_content_validation_witness :
    validateVcfFile "sample.vcf" 100 goodVcfText = VcfCheck.ok :=
  (c6_content_validation "sample.vcf" 100 goodVcfText (by decide) (by decide)).1
    (by decide) (by decide) (by decide)

theorem splitLinesAux_runA (n : ℕ) (l acc : List Char) :
    splitLinesAux (List.replicate n 'A' ++ l) acc =
      splitLinesAux l (List.replicate n 'A' ++ acc) := by
  induction n generalizing acc with
  | zero => simp
  | succ k ih =>
    rw [List.replicate_succ, List.cons_append,
      show ∀ rest acc2, splitLinesAux ('A' :: rest) acc2 = splitLinesAux rest ('A' :: acc2)
        from fun _ _ => rfl,
      ih]
    congr 1
    rw [List.append_cons, ← List.replicate_succ', List.replicate_succ, List.cons_append]

theorem longLine_take_12000 : longLineVcfText.take 12000 = List.replicate 12000 'A' := by
  unfold longLineVcfText
  rw [List.take_append_eq_append_take, List.take_replicate, List.length_replicate,
    show min 12000 12001 = 12000 from rfl, show (12000 : ℕ) - 12001 = 0 from rfl,
    List.take_zero, List.append_nil]

theorem trim_replicateA (n : ℕ) :
    trimChars (List.replicate n 'A') = List.replicate n 'A' := by
  have hd : ∀ m : ℕ, (List.replicate m 'A').dropWhile isJsWs = List.replicate m 'A' := by
    intro m
    cases m with
    | zero => rfl
    | succ k =>
      rw [List.replicate_succ, List.dropWhile_cons, if_neg (by decide)]
  unfold trimChars
  rw [hd, List.reverse_replicate, hd, List.reverse_replicate]

theorem splitLines_replicateA :
    splitLines (List.replicate 12000 'A') = [List.replicate 12000 'A'] := by
  unfold splitLines
  rw [show List.replicate 12000 'A' = List.replicate 12000 'A' ++ []
      from (List.append_nil _).symm,
    splitLinesAux_runA, splitLinesAux.eq_1]
  rw [List.append_nil, List.reverse_replicate]

/-- On the oversized first line, the sample seen by the validator is 12,000 filler
characters, so the header check fails. -/
theorem validate_longLine :
    validateVcfFile "a.vcf" 10 longLineVcfText = VcfCheck.missingHeaders := by
  simp only [validateVcfFile]
  rw [if_neg (by decide), if_neg (by decide), longLine_take_12000,
    if_neg (by
      rw [trim_replicateA]
      intro hcon
      have hlen := congrArg List.length hcon
      rw [List.length_replicate] at hlen
      exact absurd hlen (by decide)),
    splitLines_replicateA]
  have h0 : startsWithChars fileformatHdr (List.replicate 12000 'A') = false := by
    rw [show (12000 : ℕ) = 11999 + 1 from rfl, List.replicate_succ]
    rfl
  have hf : ((List.take 120 [List.replicate 12000 'A']).any
      fun l => startsWithChars fileformatHdr l) = false := by
    rw [show List.take 120 [List.replicate 12000 'A'] = [List.replicate 12000 'A'] from rfl,
      List.any_cons, List.any_nil]
    rw [show ((fun l => startsWithChars fileformatHdr l) (List.replicate 12000 'A') || false) =
        (startsWithChars fileformatHdr (List.replicate 12000 'A') || false) from rfl, h0]
    rfl
  rw [if_pos (Or.inl hf)]

theorem splitLines_longLine :
    splitLines longLineVcfText =
      List.replicate 12001 'A' ::
        ["##fileformat=VCFv4.2".data, "#CHROM\tPOS".data,
          "1\t100\trs1\tA\tT\t50\tPASS\tDP=10".data] := by
  unfold longLineVcfText splitLines
  rw [show ("\n##fileformat=VCFv4.2\n#CHROM\tPOS\n1\t100\trs1\tA\tT\t50\tPASS\tDP=10").data =
      '\n' :: ("##fileformat=VCFv4.2\n#CHROM\tPOS\n1\t100\trs1\tA\tT\t50\tPASS\tDP=10").data
      from rfl,
    splitLinesAux_runA,
    show ∀ rest acc, splitLinesAux ('\n' :: rest) acc = acc.reverse :: splitLinesAux rest []
      from fun _ _ => rfl,
    List.append_nil, List.reverse_replicate]
  congr 1

/-- C6 counterexample: the first 120 lines of `longLineVcfText` contain the
`##fileformat=VCF` line, the `#CHROM` line and an 8-field data row, yet the
validator rejects the file for missing headers, because its window is the
first 120 lines of the first 12,000 *characters* only. -/
theorem c6_counterexample :
    ((claimWindow longLineVcfText).any fun l => startsWithChars fileformatHdr l) = true ∧
    ((claimWindow longLineVcfText).any fun l => startsWithChars chromHdr l) = true ∧
    ((claimWindow longLineVcfText).any isDataRow) = true ∧
    validateVcfFile "a.vcf" 10 longLineVcfText = VcfCheck.missingHeaders ∧
    validateVcfFile "a.vcf" 10 longLineVcfText ≠ VcfCheck.ok := by
  have hw : claimWindow longLineVcfText =
      List.replicate 12001 'A' ::
        ["##fileformat=VCFv4.2".data, "#CHROM\tPOS".data,
          "1\t100\trs1\tA\tT\t50\tPASS\tDP=10".data] := by
    unfold claimWindow
    rw [splitLines_longLine]
    rfl
  refine ⟨?_, ?_, ?_, validate_longLine, by rw [validate_longLine]; decide⟩ <;>
    · rw [hw, List.any_cons, Bool.or_eq_true]
      exact Or.inr (by decide)

end PharmaGuard
